import Mathlib

/-!
Verification of the documenso envelope file storage and delivery subsystem.

The definitions below are a shallow embedding of the TypeScript source:
 - apps/remix/server/api/files/files.helpers.ts (file request handler and routes)
 - packages/lib/universal/upload/put-file.server.ts (upload pipeline)
 - packages/lib/server-only/document/queryAuditLogs (audit log pagination)

Bytes are modelled as natural numbers below 256, strings as lists of
characters.  Collaborator code that is not part of the subsystem source
(the SHA-256 implementation, the storage-backend read, the PDF library,
the ORM) is modelled from the specification; each such definition carries
a doc comment saying so.
-/

set_option autoImplicit false

namespace Documenso

/-- Generic prefix test over lists with decidable element equality. -/
def leadsWith {α : Type} [BEq α] : List α → List α → Bool
  | [], _ => true
  | _ :: _, [] => false
  | p :: ps, x :: xs => p == x && leadsWith ps xs

/-- Generic suffix test, via reversal. -/
def trailsWith {α : Type} [BEq α] (pat l : List α) : Bool :=
  leadsWith pat.reverse l.reverse

/-- Generic substring (contiguous) test. -/
def containsSeq {α : Type} [BEq α] (pat : List α) : List α → Bool
  | [] => leadsWith pat []
  | x :: xs => leadsWith pat (x :: xs) || containsSeq pat xs

/-! ### Base64 (the text-safe encoding used by the inline storage backend)

The source calls `base64.encode` from the scure library on upload
(`putFileInDatabase`) and the matching decode on retrieval.  The RFC 4648
encoding is embedded here directly.
-/

/-- Split bytes into 6-bit groups, three bytes becoming four sextets. -/
def toSextets : List Nat → List Nat
  | a :: b :: c :: rest =>
      a / 4 :: ((a % 4) * 16 + b / 16) :: ((b % 16) * 4 + c / 64) :: c % 64 :: toSextets rest
  | [a, b] => [a / 4, (a % 4) * 16 + b / 16, (b % 16) * 4]
  | [a] => [a / 4, (a % 4) * 16]
  | [] => []

/-- Reassemble bytes from 6-bit groups, inverse of `toSextets`. -/
def fromSextets : List Nat → List Nat
  | s0 :: s1 :: s2 :: s3 :: rest =>
      (s0 * 4 + s1 / 16) :: ((s1 % 16) * 16 + s2 / 4) :: ((s2 % 4) * 64 + s3) :: fromSextets rest
  | [s0, s1, s2] => [s0 * 4 + s1 / 16, (s1 % 16) * 16 + s2 / 4]
  | [s0, s1] => [s0 * 4 + s1 / 16]
  | _ => []

/-- The standard base64 alphabet, as a map from sextet to character. -/
def sextetToChar (n : Nat) : Char :=
  if n < 26 then Char.ofNat (65 + n)
  else if n < 52 then Char.ofNat (97 + (n - 26))
  else if n < 62 then Char.ofNat (48 + (n - 52))
  else if n = 62 then '+'
  else '/'

/-- Inverse of the base64 alphabet map. -/
def charToSextet (c : Char) : Nat :=
  let k := c.toNat
  if 65 ≤ k ∧ k ≤ 90 then k - 65
  else if 97 ≤ k ∧ k ≤ 122 then k - 97 + 26
  else if 48 ≤ k ∧ k ≤ 57 then k - 48 + 52
  else if k = 43 then 62
  else 63

/-- RFC 4648 base64 encoding with padding, as performed by the scure
library call in `putFileInDatabase`. -/
def base64encode (B : List Nat) : List Char :=
  let chars := (toSextets B).map sextetToChar
  match B.length % 3 with
  | 1 => chars ++ ['=', '=']
  | 2 => chars ++ ['=']
  | _ => chars

/-- Base64 decoding: strip padding, map characters back to sextets and
repack the bytes. -/
def base64decode (s : List Char) : List Nat :=
  fromSextets ((s.filter (fun c => c != '=')).map charToSextet)

theorem fromSextets_toSextets (B : List Nat) (h : ∀ x ∈ B, x < 256) :
    fromSextets (toSextets B) = B := by
  induction B using toSextets.induct with
  | case1 a b c rest ih =>
      have ha : a < 256 := h a (by simp)
      have hb : b < 256 := h b (by simp)
      have hc : c < 256 := h c (by simp)
      have hrest : ∀ x ∈ rest, x < 256 := fun x hx => h x (by simp [hx])
      simp only [toSextets, fromSextets, ih hrest, List.cons.injEq, and_true]
      omega
  | case2 a b =>
      have ha : a < 256 := h a (by simp)
      have hb : b < 256 := h b (by simp)
      simp only [toSextets, fromSextets, List.cons.injEq, and_true]
      omega
  | case3 a =>
      have ha : a < 256 := h a (by simp)
      simp only [toSextets, fromSextets, List.cons.injEq, and_true]
      omega
  | case4 => rfl

theorem toSextets_lt_64 (B : List Nat) (h : ∀ x ∈ B, x < 256) :
    ∀ s ∈ toSextets B, s < 64 := by
  induction B using toSextets.induct with
  | case1 a b c rest ih =>
      have ha : a < 256 := h a (by simp)
      have hb : b < 256 := h b (by simp)
      have hc : c < 256 := h c (by simp)
      have hrest : ∀ x ∈ rest, x < 256 := fun x hx => h x (by simp [hx])
      intro s hs
      simp only [toSextets, List.mem_cons] at hs
      rcases hs with h1 | h1 | h1 | h1 | h1
      · omega
      · omega
      · omega
      · omega
      · exact ih hrest s h1
  | case2 a b =>
      have ha : a < 256 := h a (by simp)
      have hb : b < 256 := h b (by simp)
      intro s hs
      simp only [toSextets, List.mem_cons, List.not_mem_nil, or_false] at hs
      rcases hs with h1 | h1 | h1 <;> omega
  | case3 a =>
      have ha : a < 256 := h a (by simp)
      intro s hs
      simp only [toSextets, List.mem_cons, List.not_mem_nil, or_false] at hs
      rcases hs with h1 | h1 <;> omega
  | case4 => intro s hs; simp [toSextets] at hs

theorem charToSextet_sextetToChar : ∀ n < 64, charToSextet (sextetToChar n) = n := by
  decide

theorem sextetToChar_ne_pad : ∀ n < 64, sextetToChar n ≠ '=' := by
  decide

theorem map_id_of_mem {α : Type} (f : α → α) :
    ∀ (l : List α), (∀ x ∈ l, f x = x) → l.map f = l
  | [], _ => rfl
  | x :: xs, h => by
      simp only [List.map_cons, h x (by simp),
        map_id_of_mem f xs (fun y hy => h y (by simp [hy]))]

/-- Decoding inverts encoding on any genuine byte sequence. -/
theorem base64decode_base64encode (B : List Nat) (h : ∀ x ∈ B, x < 256) :
    base64decode (base64encode B) = B := by
  have hs := toSextets_lt_64 B h
  have hfilter :
      ((toSextets B).map sextetToChar).filter (fun c => c != '=') =
        (toSextets B).map sextetToChar := by
    apply List.filter_eq_self.2
    intro c hc
    rcases List.mem_map.1 hc with ⟨s, hsmem, rfl⟩
    simpa using sextetToChar_ne_pad s (hs s hsmem)
  have hmap :
      (((toSextets B).map sextetToChar).map charToSextet) = toSextets B := by
    rw [List.map_map]
    exact map_id_of_mem _ _ (fun s hsmem => charToSextet_sextetToChar s (hs s hsmem))
  unfold base64decode base64encode
  rcases h3 : B.length % 3 with _ | _ | _ | k
  · simp only [hfilter, hmap, fromSextets_toSextets B h]
  · simp only [List.filter_append, hfilter]
    have : ([ '=', '=' ].filter (fun c => c != '=')) = [] := by decide
    simp only [this, List.append_nil, hmap, fromSextets_toSextets B h]
  · simp only [List.filter_append, hfilter]
    have : ([ '=' ].filter (fun c => c != '=')) = [] := by decide
    simp only [this, List.append_nil, hmap, fromSextets_toSextets B h]
  · omega

/-! ### Fingerprint (ETag) and the storage data model -/

/-- Lowercase hex digit. -/
def hexDigit (n : Nat) : Char :=
  if n < 10 then Char.ofNat (48 + n) else Char.ofNat (97 + (n - 10))

/-- Hex encoding of a byte sequence, two lowercase digits per byte, as
produced by toString on a byte buffer with the hex argument. -/
def hexEncode (bytes : List Nat) : List Char :=
  bytes.flatMap (fun b => [hexDigit (b / 16), hexDigit (b % 16)])

/-- Modelled from the spec: the digest underlying `fingerprint` — a
deterministic one-way hash of bytes.  The SHA-256 implementation lives in
a crypto module outside this subsystem source, so it is modelled as an
arbitrary deterministic, collision-free (injective) byte digest; every
claim below depends only on determinism and collision-freedom, never on
the digest internals. -/
def modelDigest (bytes : List Nat) : List Nat := bytes

/-- Modelled from the spec: `sha256` applied to a string, as called by
`handleEnvelopeItemFileRequest`; digests the codepoints of the string. -/
def sha256 (s : List Char) : List Nat := modelDigest (s.map Char.toNat)

/-- Modelled from the spec: `fingerprint(bytes) -> token`, a deterministic
one-way hash of the exact bytes being served, hex-encoded.  This is the
spec-side definition, to be compared against the ETag the source computes. -/
def fingerprint (bytes : List Nat) : List Char := hexEncode (modelDigest bytes)

/-- The prisma `DocumentDataType` variants used by the storage layer. -/
inductive DocumentDataType
  | BYTES_64
  | S3_PATH
deriving DecidableEq, Repr

/-- The prisma `DocumentStatus` variants. -/
inductive DocumentStatus
  | DRAFT
  | PENDING
  | COMPLETED
  | REJECTED
deriving DecidableEq, Repr

/-- A `DocumentData` descriptor: storage type tag plus stored payload
(base64 text for `BYTES_64`, object key for `S3_PATH`). -/
structure DocumentData where
  type : DocumentDataType
  data : List Char
deriving DecidableEq, Repr

/-- The external object store plus its failure mode: an association list
from keys to byte payloads, and a flag modelling a backend read outage
(spec: network failure surfaces as a distinct error kind). -/
structure Storage where
  s3Objects : List (List Char × List Nat)
  s3Fails : Bool
deriving DecidableEq, Repr

/-- Storage-backend calls, logged so that theorems can state when the
backend was or was not touched. -/
inductive StorageOp
  | get (t : DocumentDataType) (data : List Char)
  | put (bytes : List Nat)
deriving DecidableEq, Repr

/-- Errors a storage read can surface. -/
inductive StorageError
  | networkFailure
  | objectMissing
deriving DecidableEq, Repr

/-- Modelled from the spec: `getFileServerSide` (StorageBackend.get) —
the retrieval half of the backend, whose source lives outside this
subsystem: the inline backend decodes the same text-safe encoding that
`putFileInDatabase` wrote; the object-store backend fetches the object by
key, network failure surfacing as a distinct error. -/
def getFileServerSide (storage : Storage) (t : DocumentDataType) (data : List Char) :
    Except StorageError (List Nat) :=
  match t with
  | .BYTES_64 => .ok (base64decode data)
  | .S3_PATH =>
      if storage.s3Fails then .error .networkFailure
      else
        match storage.s3Objects.find? (fun kv => kv.1 == data) with
        | some kv => .ok kv.2
        | none => .error .objectMissing

/-- A file as handed to the upload pipeline: a name and its bytes. -/
structure UploadFile where
  name : List Char
  bytes : List Nat
deriving DecidableEq, Repr

/-- Fresh object key for an upload, modelling the collaborator
`uploadS3File` key generation (unique per store). -/
def freshS3Key (storage : Storage) : List Char :=
  'k' :: (Nat.toDigits 10 storage.s3Objects.length)

/-- Modelled from the spec: `uploadS3File` — uploads bytes to the object
store under a generated key and returns the key. -/
def uploadS3File (storage : Storage) (file : UploadFile) : List Char × Storage :=
  let key := freshS3Key storage
  (key, { storage with s3Objects := (key, file.bytes) :: storage.s3Objects })

/-- Source `putFileInDatabase`: base64-encode the bytes and store them
inline in the document data record. -/
def putFileInDatabase (file : UploadFile) : DocumentData :=
  { type := .BYTES_64, data := base64encode file.bytes }

/-- Source `putFileInS3`: upload to the object store, return the key as
the document data payload. -/
def putFileInS3 (storage : Storage) (file : UploadFile) : DocumentData × Storage :=
  let (key, storage') := uploadS3File storage file
  ({ type := .S3_PATH, data := key }, storage')

/-- The configured upload transport, selected once from configuration. -/
inductive Transport
  | s3
  | database
deriving DecidableEq, Repr

/-- Source `putFileServerSide`: dispatch on the configured transport;
the s3 transport goes to the object store, anything else inline.  Returns
the created descriptor, the new storage state and the storage operations
performed. -/
def putFileServerSide (transport : Transport) (storage : Storage) (file : UploadFile) :
    DocumentData × Storage × List StorageOp :=
  match transport with
  | .s3 =>
      let (dd, storage') := putFileInS3 storage file
      (dd, storage', [StorageOp.put file.bytes])
  | .database => (putFileInDatabase file, storage, [StorageOp.put file.bytes])

/-! ### Upload pipeline (put-file.server.ts and the POST /upload-pdf route) -/

/-- Application error codes raised by the upload pipeline. -/
inductive AppError
  | INVALID_DOCUMENT_FILE
  | UNKNOWN_ERROR
deriving DecidableEq, Repr

/-- Modelled from the spec: the structural-parse half of the PDF library
call `PDFDocument.load` — the library is external to this subsystem, and
is modelled as accepting exactly the byte sequences carrying the PDF
header magic. -/
def pdfParses (bytes : List Nat) : Bool :=
  leadsWith [37, 80, 68, 70] bytes

/-- Modelled from the spec: the `isEncrypted` flag the PDF library reports
after a structural parse; modelled as the presence of the encryption
dictionary marker in the bytes. -/
def pdfIsEncrypted (bytes : List Nat) : Bool :=
  containsSeq [47, 69, 110, 99, 114, 121, 112, 116] bytes

/-- Filename normalization from the source: ensure a pdf suffix. -/
def ensurePdfName (name : List Char) : List Char :=
  if trailsWith ".pdf".toList name then name else name ++ ".pdf".toList

/-- Modelled from the spec: `normalizePdf` — the optional pre-storage
transform that rewrites internal PDF structure before the bytes are
handed to the storage backend; per the spec it is a distinct transform,
not part of validation proper, so it performs no rejection.  Its source
lives outside this subsystem; the structural rewrite is modelled as the
identity on the byte payload. -/
def normalizePdf (bytes : List Nat) : List Nat := bytes

/-- Source `putPdfFileServerSide`: parse the PDF (rejecting on failure),
reject encrypted documents (the encrypted-documents feature flag is
hardcoded off), normalize the filename, then hand the bytes to
`putFileServerSide` and create the document data record. -/
def putPdfFileServerSide (transport : Transport) (storage : Storage) (file : UploadFile) :
    Except AppError (DocumentData × Storage × List StorageOp) :=
  if !pdfParses file.bytes then .error .INVALID_DOCUMENT_FILE
  else if pdfIsEncrypted file.bytes then .error .INVALID_DOCUMENT_FILE
  else
    let file' : UploadFile := { name := ensurePdfName file.name, bytes := file.bytes }
    .ok (putFileServerSide transport storage file')

/-- Source `putNormalizedPdfFileServerSide`: normalize the PDF bytes,
normalize the filename and store — with no validation step. -/
def putNormalizedPdfFileServerSide (transport : Transport) (storage : Storage)
    (file : UploadFile) : DocumentData × Storage × List StorageOp :=
  let normalized := normalizePdf file.bytes
  let file' : UploadFile := { name := ensurePdfName file.name, bytes := normalized }
  putFileServerSide transport storage file'

/-- Bodies an HTTP response of this subsystem can carry. -/
inductive ResponseBody
  | empty
  | bytes (b : List Nat)
  | jsonError (msg : List Char)
  | jsonDocData (dd : DocumentData)
deriving DecidableEq, Repr

/-- An HTTP response: status plus the headers this subsystem sets. -/
structure FileResponse where
  status : Nat
  body : ResponseBody
  contentType : Option (List Char) := none
  etag : Option (List Char) := none
  cacheControl : Option (List Char) := none
  pragma : Option (List Char) := none
  expires : Option (List Char) := none
  contentDisposition : Option (List Char) := none
deriving DecidableEq, Repr

/-- A response carrying only a status and a json error message. -/
def jsonErrorResponse (status : Nat) (msg : List Char) : FileResponse :=
  { status := status, body := ResponseBody.jsonError msg }

def errNoFile : List Char := "No file provided".toList
def errTooLarge : List Char := "File too large".toList
def errUnauthorized : List Char := "Unauthorized".toList
def errEnvelopeNotFound : List Char := "Envelope not found".toList
def errItemNotFound : List Char := "Envelope item not found".toList
def errTeamForbidden : List Char :=
  "User does not have access to the team that this envelope is associated with".toList
def errDocDataNotFound : List Char := "Document data not found".toList
def errFileNotFound : List Char := "File not found".toList

/-- Source route POST /upload-pdf: reject a missing file with 400, reject
a file larger than the configured limit (megabytes, converted at the rate
of 1024 * 1024 bytes) with 400, otherwise store via the normalization
path and return the created descriptor. -/
def uploadPdfRoute (transport : Transport) (sizeLimitMb : Nat) (storage : Storage)
    (file? : Option UploadFile) : FileResponse × Storage × List StorageOp :=
  let maxFileSize := sizeLimitMb * 1024 * 1024
  match file? with
  | none => (jsonErrorResponse 400 errNoFile, storage, [])
  | some file =>
      if file.bytes.length > maxFileSize then
        (jsonErrorResponse 400 errTooLarge, storage, [])
      else
        let (dd, storage', ops) := putNormalizedPdfFileServerSide transport storage file
        ({ status := 200, body := ResponseBody.jsonDocData dd }, storage', ops)

/-! ### The envelope item file handler (files.helpers.ts) -/

/-- The file version selector of the handler. -/
inductive FileVersion
  | signed
  | original
deriving DecidableEq, Repr

/-- The document data shape the handler receives: type tag plus both the
current (post-signing) and the initial payload strings. -/
structure HandlerDocumentData where
  type : DocumentDataType
  data : List Char
  initialData : List Char
deriving DecidableEq, Repr

/-- The options record of `handleEnvelopeItemFileRequest`. -/
structure HandlerOptions where
  title : List Char
  status : DocumentStatus
  documentData : HandlerDocumentData
  version : FileVersion
  isDownload : Bool
deriving DecidableEq, Repr

/-- The request facts the handler reads: the If-None-Match header. -/
structure FileRequest where
  ifNoneMatch : Option (List Char)
deriving DecidableEq, Repr

/-- The payload string the handler selects: the current data for the
signed version, the initial data otherwise. -/
def selectedData (o : HandlerOptions) : List Char :=
  match o.version with
  | .signed => o.documentData.data
  | .original => o.documentData.initialData

/-- The ETag the handler computes: hex digest of the selected stored
payload string. -/
def etagOf (o : HandlerOptions) : List Char :=
  hexEncode (sha256 (selectedData o))

def pdfContentType : List Char := "application/pdf".toList
def ccImmutable : List Char := "public, max-age=31536000, immutable".toList
def ccRevalidate : List Char := "public, max-age=0, must-revalidate".toList
def ccNoStore : List Char := "no-cache, no-store, must-revalidate".toList
def pragmaNoCache : List Char := "no-cache".toList
def expiresZero : List Char := "0".toList

/-- Strip one trailing pdf suffix from a title, as the download filename
generation does. -/
def stripPdfSuffix (t : List Char) : List Char :=
  if trailsWith ".pdf".toList t then t.take (t.length - 4) else t

/-- Download filename: base title plus a version-dependent suffix. -/
def downloadFilename (title : List Char) (version : FileVersion) : List Char :=
  stripPdfSuffix title ++
    (match version with
      | .signed => "_signed.pdf".toList
      | .original => ".pdf".toList)

/-- The 200 response of the handler: the bytes with content type, ETag,
cache-control and, for downloads, disposition and anti-caching headers. -/
def serveFileResponse (o : HandlerOptions) (file : List Nat) : FileResponse :=
  { status := 200
  , body := ResponseBody.bytes file
  , contentType := some pdfContentType
  , etag := some (etagOf o)
  , cacheControl := some
      (if o.isDownload then ccNoStore
       else if o.status = DocumentStatus.COMPLETED then ccImmutable
       else ccRevalidate)
  , pragma := if o.isDownload then some pragmaNoCache else none
  , expires := if o.isDownload then some expiresZero else none
  , contentDisposition :=
      if o.isDownload then some (downloadFilename o.title o.version) else none }

/-- Source `handleEnvelopeItemFileRequest`: select the payload by version,
compute the ETag, answer 304 on a matching If-None-Match for a non-download
request, otherwise read the bytes from the storage backend (a read failure
is caught and answered as a 404), and serve them.  The second component
logs the storage operations performed. -/
def handleEnvelopeItemFileRequest (storage : Storage) (o : HandlerOptions)
    (req : FileRequest) : FileResponse × List StorageOp :=
  let dataToUse := selectedData o
  let etag := etagOf o
  if req.ifNoneMatch == some etag && !o.isDownload then
    ({ status := 304, body := ResponseBody.empty }, [])
  else
    let op := StorageOp.get o.documentData.type dataToUse
    match getFileServerSide storage o.documentData.type dataToUse with
    | .error _ => (jsonErrorResponse 404 errFileNotFound, [op])
    | .ok file => (serveFileResponse o file, [op])

/-- The cache policy of the spec table, as a pure function of the envelope
status and the download flag. -/
def cachePolicy (status : DocumentStatus) (isDownload : Bool) : List Char :=
  if isDownload then ccNoStore
  else if status = DocumentStatus.COMPLETED then ccImmutable
  else ccRevalidate

/-- Propositional characterization of the handler, used by the claim
proofs below. -/
theorem handleEnvelopeItemFileRequest_spec (storage : Storage) (o : HandlerOptions)
    (req : FileRequest) :
    handleEnvelopeItemFileRequest storage o req =
      if req.ifNoneMatch = some (etagOf o) ∧ o.isDownload = false then
        ({ status := 304, body := ResponseBody.empty }, [])
      else
        match getFileServerSide storage o.documentData.type (selectedData o) with
        | .error _ => (jsonErrorResponse 404 errFileNotFound,
            [StorageOp.get o.documentData.type (selectedData o)])
        | .ok file => (serveFileResponse o file,
            [StorageOp.get o.documentData.type (selectedData o)]) := by
  simp only [handleEnvelopeItemFileRequest]
  by_cases hp : req.ifNoneMatch = some (etagOf o) ∧ o.isDownload = false
  · rw [if_pos (by rw [Bool.and_eq_true, beq_iff_eq, Bool.not_eq_true']; exact hp),
      if_pos hp]
  · rw [if_neg (by rw [Bool.and_eq_true, beq_iff_eq, Bool.not_eq_true']; exact hp),
      if_neg hp]

/-! ### Retrieval routes (files.helpers.ts, filesRoute GET handlers) -/

/-- An envelope row: status, owning team and optional QR token. -/
structure EnvelopeRec where
  id : Nat
  status : DocumentStatus
  teamId : Nat
  qrToken : Option (List Char)
deriving DecidableEq, Repr

/-- An envelope item row with its optional document data. -/
structure EnvelopeItemRec where
  id : Nat
  envelopeId : Nat
  title : List Char
  documentData : Option HandlerDocumentData
deriving DecidableEq, Repr

/-- A recipient row: the envelope it signs and its signing token. -/
structure RecipientRec where
  envelopeId : Nat
  token : List Char
deriving DecidableEq, Repr

/-- The relational facts the routes consult, resolved by the collaborator
layer: envelopes, items, recipients, team memberships and the issued
embedding presign tokens. -/
structure Db where
  envelopes : List EnvelopeRec
  envelopeItems : List EnvelopeItemRec
  recipients : List RecipientRec
  teamMembers : List (Nat × Nat)
  presignTokens : List (List Char × Nat)
deriving DecidableEq, Repr

/-- Modelled from the spec: `verifyEmbeddingPresignToken` — resolves a
short-lived presign token to the userId it is scoped to, or fails. -/
def verifyEmbeddingPresignToken (db : Db) (token : List Char) : Option Nat :=
  (db.presignTokens.find? (fun p => p.1 == token)).map (fun p => p.2)

/-- Modelled from the spec: `getTeamById` — succeeds exactly when the
user has membership on the team. -/
def isTeamMember (db : Db) (userId teamId : Nat) : Bool :=
  db.teamMembers.any (fun m => m.1 == userId && m.2 == teamId)

/-- Source route GET /envelope/:envelopeId/envelopeItem/:envelopeItemId
(the view path): resolve the user from the presign token when one is
supplied, else from the session; no user is 401; a missing envelope or
item is 404; a user without membership of the owning team is 403; missing
document data is 404; otherwise delegate to the handler with the signed
version and no download flag. -/
def envelopeItemViewRoute (db : Db) (storage : Storage) (sessionUserId : Option Nat)
    (tokenQuery : Option (List Char)) (envelopeId envelopeItemId : Nat)
    (req : FileRequest) : FileResponse × List StorageOp :=
  let userId :=
    match tokenQuery with
    | some t => verifyEmbeddingPresignToken db t
    | none => sessionUserId
  match userId with
  | none => (jsonErrorResponse 401 errUnauthorized, [])
  | some uid =>
      match db.envelopes.find? (fun e => e.id == envelopeId) with
      | none => (jsonErrorResponse 404 errEnvelopeNotFound, [])
      | some env =>
          match db.envelopeItems.find?
              (fun i => i.id == envelopeItemId && i.envelopeId == env.id) with
          | none => (jsonErrorResponse 404 errItemNotFound, [])
          | some item =>
              if !isTeamMember db uid env.teamId then
                (jsonErrorResponse 403 errTeamForbidden, [])
              else
                match item.documentData with
                | none => (jsonErrorResponse 404 errDocDataNotFound, [])
                | some dd =>
                    handleEnvelopeItemFileRequest storage
                      { title := item.title
                      , status := env.status
                      , documentData := dd
                      , version := FileVersion.signed
                      , isDownload := false } req

/-- The qr token prefix convention of the source. -/
def startsWithQr (token : List Char) : Bool :=
  match token with
  | 'q' :: 'r' :: '_' :: _ => true
  | _ => false

/-- The findUnique query of the token routes: the item by id whose
envelope either carries the token as its QR token (for qr-prefixed
tokens) or has a recipient holding the token.  Returns the item together
with its envelope. -/
def findTokenItem (db : Db) (token : List Char) (envelopeItemId : Nat) :
    Option (EnvelopeItemRec × EnvelopeRec) :=
  (db.envelopeItems.find? (fun i => i.id == envelopeItemId)).bind (fun item =>
    (db.envelopes.find? (fun e => e.id == item.envelopeId)).bind (fun env =>
      if startsWithQr token then
        if env.qrToken == some token then some (item, env) else none
      else
        if db.recipients.any (fun r => r.envelopeId == env.id && r.token == token) then
          some (item, env)
        else none))

/-- Source route GET /token/:token/envelopeItem/:envelopeItemId (the
recipient or qr token view path): look the item up gated by the token
condition; a miss — whether the item is absent or the token matches no
recipient — is 404; missing document data is 404; otherwise delegate to
the handler with the signed version and no download flag. -/
def tokenViewRoute (db : Db) (storage : Storage) (token : List Char)
    (envelopeItemId : Nat) (req : FileRequest) : FileResponse × List StorageOp :=
  match findTokenItem db token envelopeItemId with
  | none => (jsonErrorResponse 404 errItemNotFound, [])
  | some (item, env) =>
      match item.documentData with
      | none => (jsonErrorResponse 404 errDocDataNotFound, [])
      | some dd =>
          handleEnvelopeItemFileRequest storage
            { title := item.title
            , status := env.status
            , documentData := dd
            , version := FileVersion.signed
            , isDownload := false } req

/-! ### Audit log pagination (queryAuditLogs) -/

/-- The audit log event types the recent-activity filter refers to. -/
inductive AuditLogType
  | DOCUMENT_COMPLETED
  | DOCUMENT_CREATED
  | DOCUMENT_DELETED
  | DOCUMENT_OPENED
  | DOCUMENT_RECIPIENT_COMPLETED
  | DOCUMENT_RECIPIENT_REJECTED
  | DOCUMENT_SENT
  | DOCUMENT_MOVED_TO_TEAM
  | EMAIL_SENT
  | OTHER
deriving DecidableEq, Repr

/-- An audit log row; the data payload is reduced to the one field the
where clause inspects. -/
structure AuditLog where
  id : Nat
  envelopeId : Nat
  type : AuditLogType
  createdAt : Nat
  dataIsResending : Bool
deriving DecidableEq, Repr

def RECENT_ACTIVITY_EVENT_TYPES : List AuditLogType :=
  [ AuditLogType.DOCUMENT_COMPLETED
  , AuditLogType.DOCUMENT_CREATED
  , AuditLogType.DOCUMENT_DELETED
  , AuditLogType.DOCUMENT_OPENED
  , AuditLogType.DOCUMENT_RECIPIENT_COMPLETED
  , AuditLogType.DOCUMENT_RECIPIENT_REJECTED
  , AuditLogType.DOCUMENT_SENT
  , AuditLogType.DOCUMENT_MOVED_TO_TEAM ]

/-- Source `buildAuditLogWhereClause`: rows of the envelope; when the
recent-activity filter is on, additionally either a recent event type or
a resent email event. -/
def buildAuditLogWhereClause (envelope : EnvelopeRec) (filterForRecentActivity : Bool)
    (l : AuditLog) : Bool :=
  l.envelopeId == envelope.id &&
    (if filterForRecentActivity then
      RECENT_ACTIVITY_EVENT_TYPES.contains l.type ||
        (l.type == AuditLogType.EMAIL_SENT && l.dataIsResending)
    else true)

/-- The sortable columns of the query. -/
inductive AuditLogColumn
  | createdAt
  | logType
  | logId
deriving DecidableEq, Repr

inductive SortDirection
  | asc
  | desc
deriving DecidableEq, Repr

/-- Rank of an audit log type, for ordering by the type column. -/
def auditLogTypeRank : AuditLogType → Nat
  | .DOCUMENT_COMPLETED => 0
  | .DOCUMENT_CREATED => 1
  | .DOCUMENT_DELETED => 2
  | .DOCUMENT_OPENED => 3
  | .DOCUMENT_RECIPIENT_COMPLETED => 4
  | .DOCUMENT_RECIPIENT_REJECTED => 5
  | .DOCUMENT_SENT => 6
  | .DOCUMENT_MOVED_TO_TEAM => 7
  | .EMAIL_SENT => 8
  | .OTHER => 9

/-- Sort key of a row under a column. -/
def auditLogKey (column : AuditLogColumn) (l : AuditLog) : Nat :=
  match column with
  | .createdAt => l.createdAt
  | .logType => auditLogTypeRank l.type
  | .logId => l.id

/-- Ordering predicate for the find query. -/
def auditLogLe (column : AuditLogColumn) (direction : SortDirection)
    (a b : AuditLog) : Bool :=
  match direction with
  | .asc => auditLogKey column a ≤ auditLogKey column b
  | .desc => auditLogKey column b ≤ auditLogKey column a

/-- Insertion into a sorted list of audit logs. -/
def insertSorted (le : AuditLog → AuditLog → Bool) (x : AuditLog) :
    List AuditLog → List AuditLog
  | [] => [x]
  | y :: ys => if le x y then x :: y :: ys else y :: insertSorted le x ys

/-- Insertion sort, modelling the order clause the database applies. -/
def sortLogs (le : AuditLog → AuditLog → Bool) : List AuditLog → List AuditLog
  | [] => []
  | x :: xs => insertSorted le x (sortLogs le xs)

theorem length_insertSorted (le : AuditLog → AuditLog → Bool) (x : AuditLog)
    (l : List AuditLog) : (insertSorted le x l).length = l.length + 1 := by
  induction l with
  | nil => rfl
  | cons y ys ih =>
      simp only [insertSorted]
      split
      · simp
      · simp [ih]

theorem length_sortLogs (le : AuditLog → AuditLog → Bool) (l : List AuditLog) :
    (sortLogs le l).length = l.length := by
  induction l with
  | nil => rfl
  | cons x xs ih => simp [sortLogs, length_insertSorted, ih]

/-- Modelled from the spec: `parseDocumentAuditLogData` — the collaborator
parse of each row payload; it rewrites the data field of a row and
keeps its identity, modelled as the identity on the reduced row. -/
def parseDocumentAuditLogData (l : AuditLog) : AuditLog := l

/-- The rows matching the where clause. -/
def auditLogMatches (db : List AuditLog) (envelope : EnvelopeRec)
    (filterForRecentActivity : Bool) : List AuditLog :=
  db.filter (buildAuditLogWhereClause envelope filterForRecentActivity)

/-- The matching rows in query order, positioned at the cursor row when a
cursor is supplied (the database starts the window at the row with the
cursor id). -/
def auditLogPositioned (db : List AuditLog) (envelope : EnvelopeRec)
    (filterForRecentActivity : Bool) (orderBy : Option (AuditLogColumn × SortDirection))
    (cursor : Option Nat) : List AuditLog :=
  let column := (orderBy.map (fun p => p.1)).getD AuditLogColumn.createdAt
  let direction := (orderBy.map (fun p => p.2)).getD SortDirection.desc
  let sorted := sortLogs (auditLogLe column direction)
    (auditLogMatches db envelope filterForRecentActivity)
  match cursor with
  | some c => sorted.dropWhile (fun l => !(l.id == c))
  | none => sorted

/-- The result record of `queryAuditLogs`. -/
structure AuditLogQueryResult where
  data : List AuditLog
  count : Nat
  currentPage : Int
  perPage : Nat
  totalPages : Nat
  nextCursor : Option Nat
deriving DecidableEq, Repr

/-- The skip offset: pages before the clamped current page. -/
def auditLogSkip (page : Int) (perPage : Nat) : Nat :=
  ((max page 1 - 1) * perPage).toNat

/-- Source `queryAuditLogs`: clamp the page to at least one, skip past the
earlier pages, fetch one row more than a page, and truncate — the extra
row, when present, supplies the next cursor. -/
def queryAuditLogs (db : List AuditLog) (envelope : EnvelopeRec) (page : Int)
    (perPage : Nat) (orderBy : Option (AuditLogColumn × SortDirection))
    (cursor : Option Nat) (filterForRecentActivity : Bool) : AuditLogQueryResult :=
  let normalizedPage : Int := max page 1
  let skip : Nat := auditLogSkip page perPage
  let positioned := auditLogPositioned db envelope filterForRecentActivity orderBy cursor
  let fetched := (positioned.drop skip).take (perPage + 1)
  let count := (auditLogMatches db envelope filterForRecentActivity).length
  let allParsedData := fetched.map parseDocumentAuditLogData
  let hasNextPage := decide (perPage < allParsedData.length)
  { data := if hasNextPage then allParsedData.take perPage else allParsedData
  , count := count
  , currentPage := normalizedPage
  , perPage := perPage
  , totalPages := (count + perPage - 1) / perPage
  , nextCursor :=
      if hasNextPage then (allParsedData[perPage]?).map (fun l => l.id) else none }

/-! ### Concrete fixtures used by witnesses and counterexamples -/

def storage0 : Storage := { s3Objects := [], s3Fails := false }

def storageDown : Storage := { s3Objects := [], s3Fails := true }

def ddInline37 : HandlerDocumentData :=
  { type := DocumentDataType.BYTES_64
  , data := base64encode [37]
  , initialData := base64encode [37] }

def ddS3k : HandlerDocumentData :=
  { type := DocumentDataType.S3_PATH, data := "k0".toList, initialData := "k0".toList }

def opts37 (status : DocumentStatus) (isDownload : Bool) : HandlerOptions :=
  { title := "Doc".toList
  , status := status
  , documentData := ddInline37
  , version := FileVersion.signed
  , isDownload := isDownload }

/-! ### Claim C6: storage round-trip -/

/-- C6: for every byte sequence B, StorageBackend.get inverts
StorageBackend.put for both the inline backend and the object-store
backend, and the inline put of B yields the inline type tag (source name
BYTES_64, called INLINE_BYTES in the spec) with the base64 encoding of B
as payload. -/
theorem c6_storage_roundtrip (B : List Nat) (storage : Storage) (file : UploadFile)
    (hB : ∀ x ∈ B, x < 256) (hf : file.bytes = B) (hok : storage.s3Fails = false) :
    putFileInDatabase file =
      { type := DocumentDataType.BYTES_64, data := base64encode B } ∧
    getFileServerSide storage DocumentDataType.BYTES_64 (putFileInDatabase file).data =
      Except.ok B ∧
    getFileServerSide (putFileInS3 storage file).2 ((putFileInS3 storage file).1).type
      ((putFileInS3 storage file).1).data = Except.ok B := by
  subst hf
  refine ⟨rfl, ?_, ?_⟩
  · simp only [getFileServerSide, putFileInDatabase]
    rw [base64decode_base64encode _ hB]
  · simp [getFileServerSide, putFileInS3, uploadS3File, hok]

/-- Witness for C6 at a concrete two-byte file. -/
theorem c6_storage_roundtrip_witness :
    putFileInDatabase { name := "a.pdf".toList, bytes := [37, 80] } =
      { type := DocumentDataType.BYTES_64, data := base64encode [37, 80] } ∧
    getFileServerSide storage0 DocumentDataType.BYTES_64
      (putFileInDatabase { name := "a.pdf".toList, bytes := [37, 80] }).data =
        Except.ok [37, 80] ∧
    getFileServerSide (putFileInS3 storage0 { name := "a.pdf".toList, bytes := [37, 80] }).2
      ((putFileInS3 storage0 { name := "a.pdf".toList, bytes := [37, 80] }).1).type
      ((putFileInS3 storage0 { name := "a.pdf".toList, bytes := [37, 80] }).1).data =
        Except.ok [37, 80] :=
  c6_storage_roundtrip [37, 80] storage0 { name := "a.pdf".toList, bytes := [37, 80] }
    (by decide) rfl rfl

/-! ### Claim C1: what the ETag is a hash of -/

/-- C1 counterexample: under the inline backend, storing the single byte
0x25 and retrieving it serves exactly that byte, but the ETag is the
digest of the stored base64 text, not `fingerprint` of the decoded bytes
being served. -/
theorem c1_etag_counterexample :
    ((handleEnvelopeItemFileRequest storage0 (opts37 DocumentStatus.COMPLETED false)
        { ifNoneMatch := none }).1.status = 200) ∧
    ((handleEnvelopeItemFileRequest storage0 (opts37 DocumentStatus.COMPLETED false)
        { ifNoneMatch := none }).1.body = ResponseBody.bytes [37]) ∧
    ((handleEnvelopeItemFileRequest storage0 (opts37 DocumentStatus.COMPLETED false)
        { ifNoneMatch := none }).1.etag ≠ some (fingerprint [37])) := by
  decide

/-- C1 amended: every 200 response carries an ETag equal to the
deterministic hex-encoded digest of the stored payload string of the
selected version (the base64 text under the inline backend, the storage
key under the object store), not of the decoded bytes. -/
theorem c1_etag_of_stored_payload (storage : Storage) (o : HandlerOptions)
    (req : FileRequest)
    (h : (handleEnvelopeItemFileRequest storage o req).1.status = 200) :
    (handleEnvelopeItemFileRequest storage o req).1.etag =
      some (hexEncode (sha256 (selectedData o))) := by
  rw [handleEnvelopeItemFileRequest_spec] at h ⊢
  by_cases hp : req.ifNoneMatch = some (etagOf o) ∧ o.isDownload = false
  · simp [hp] at h
  · rw [if_neg hp] at h ⊢
    cases hg : getFileServerSide storage o.documentData.type (selectedData o) with
    | error e =>
        rw [hg] at h
        simp [jsonErrorResponse] at h
    | ok file => rfl

/-- Witness for the amended C1 at a concrete stored document. -/
theorem c1_etag_of_stored_payload_witness :
    (handleEnvelopeItemFileRequest storage0 (opts37 DocumentStatus.COMPLETED false)
        { ifNoneMatch := none }).1.etag =
      some (hexEncode (sha256 (selectedData (opts37 DocumentStatus.COMPLETED false)))) :=
  c1_etag_of_stored_payload storage0 (opts37 DocumentStatus.COMPLETED false)
    { ifNoneMatch := none } (by decide)

/-! ### Claim C2: conditional responses -/

/-- C2: a 304 with empty body is returned exactly when the supplied
If-None-Match token equals the current fingerprint and the request is not
a download; and a download whose bytes are retrievable returns 200 with
the full body even when the token matches. -/
theorem c2_conditional_response (storage : Storage) (o : HandlerOptions)
    (req : FileRequest) :
    (((handleEnvelopeItemFileRequest storage o req).1.status = 304 ∧
        (handleEnvelopeItemFileRequest storage o req).1.body = ResponseBody.empty) ↔
      (req.ifNoneMatch = some (etagOf o) ∧ o.isDownload = false)) ∧
    (∀ B, o.isDownload = true →
      getFileServerSide storage o.documentData.type (selectedData o) = Except.ok B →
      (handleEnvelopeItemFileRequest storage o req).1.status = 200 ∧
      (handleEnvelopeItemFileRequest storage o req).1.body = ResponseBody.bytes B) := by
  constructor
  · rw [handleEnvelopeItemFileRequest_spec]
    by_cases hp : req.ifNoneMatch = some (etagOf o) ∧ o.isDownload = false
    · simp [hp]
    · rw [if_neg hp]
      cases hg : getFileServerSide storage o.documentData.type (selectedData o) with
      | error e => simp [jsonErrorResponse, hp]
      | ok file => simp [serveFileResponse, hp]
  · intro B hdl hg
    rw [handleEnvelopeItemFileRequest_spec]
    have hp : ¬(req.ifNoneMatch = some (etagOf o) ∧ o.isDownload = false) := by
      intro hcontra
      rw [hcontra.2] at hdl
      exact Bool.false_ne_true hdl
    rw [if_neg hp, hg]
    exact ⟨rfl, rfl⟩

/-- Witness for C2: a matching view request answers 304 empty, while a
download of the same stored document answers 200 with the bytes. -/
theorem c2_conditional_response_witness :
    ((handleEnvelopeItemFileRequest storage0 (opts37 DocumentStatus.COMPLETED false)
        { ifNoneMatch := some (etagOf (opts37 DocumentStatus.COMPLETED false)) }).1.status =
          304 ∧
      (handleEnvelopeItemFileRequest storage0 (opts37 DocumentStatus.COMPLETED false)
        { ifNoneMatch := some (etagOf (opts37 DocumentStatus.COMPLETED false)) }).1.body =
          ResponseBody.empty) ∧
    ((handleEnvelopeItemFileRequest storage0 (opts37 DocumentStatus.COMPLETED true)
        { ifNoneMatch := some (etagOf (opts37 DocumentStatus.COMPLETED true)) }).1.status =
          200 ∧
      (handleEnvelopeItemFileRequest storage0 (opts37 DocumentStatus.COMPLETED true)
        { ifNoneMatch := some (etagOf (opts37 DocumentStatus.COMPLETED true)) }).1.body =
          ResponseBody.bytes [37]) := by
  constructor
  · exact (c2_conditional_response storage0 (opts37 DocumentStatus.COMPLETED false)
      { ifNoneMatch := some (etagOf (opts37 DocumentStatus.COMPLETED false)) }).1.2
      ⟨rfl, rfl⟩
  · exact (c2_conditional_response storage0 (opts37 DocumentStatus.COMPLETED true)
      { ifNoneMatch := some (etagOf (opts37 DocumentStatus.COMPLETED true)) }).2
      [37] rfl rfl

/-! ### Claim C4: cache policy -/

/-- C4: on every 200 response the Cache-Control header is the pure
function of envelope status and the download flag given by the spec
table: long-lived immutable for a completed view, revalidate-always for
any other view, no-store for every download. -/
theorem c4_cache_control (storage : Storage) (o : HandlerOptions) (req : FileRequest) :
    ((handleEnvelopeItemFileRequest storage o req).1.status = 200 →
      (handleEnvelopeItemFileRequest storage o req).1.cacheControl =
        some (cachePolicy o.status o.isDownload)) ∧
    cachePolicy DocumentStatus.COMPLETED false = ccImmutable ∧
    (∀ s, s ≠ DocumentStatus.COMPLETED → cachePolicy s false = ccRevalidate) ∧
    (∀ s, cachePolicy s true = ccNoStore) := by
  refine ⟨?_, rfl, ?_, ?_⟩
  · intro h
    rw [handleEnvelopeItemFileRequest_spec] at h ⊢
    by_cases hp : req.ifNoneMatch = some (etagOf o) ∧ o.isDownload = false
    · simp [hp] at h
    · rw [if_neg hp] at h ⊢
      cases hg : getFileServerSide storage o.documentData.type (selectedData o) with
      | error e =>
          rw [hg] at h
          simp [jsonErrorResponse] at h
      | ok file => rfl
  · intro s hs
    simp [cachePolicy, hs]
  · intro s
    simp [cachePolicy]

/-- Witness for C4: a completed view serves the immutable policy. -/
theorem c4_cache_control_witness :
    (handleEnvelopeItemFileRequest storage0 (opts37 DocumentStatus.COMPLETED false)
        { ifNoneMatch := none }).1.cacheControl =
      some (cachePolicy DocumentStatus.COMPLETED false) :=
  (c4_cache_control storage0 (opts37 DocumentStatus.COMPLETED false)
    { ifNoneMatch := none }).1 (by decide)

/-! ### Claim C9: a 304 touches no storage -/

/-- C9: when the handler answers 304, the storage backend is never
consulted — the operation log of the request is empty. -/
theorem c9_not_modified_no_backend_read (storage : Storage) (o : HandlerOptions)
    (req : FileRequest)
    (h : (handleEnvelopeItemFileRequest storage o req).1.status = 304) :
    (handleEnvelopeItemFileRequest storage o req).2 = [] := by
  rw [handleEnvelopeItemFileRequest_spec] at h ⊢
  by_cases hp : req.ifNoneMatch = some (etagOf o) ∧ o.isDownload = false
  · rw [if_pos hp]
  · rw [if_neg hp] at h ⊢
    cases hg : getFileServerSide storage o.documentData.type (selectedData o) with
    | error e =>
        rw [hg] at h
        simp [jsonErrorResponse] at h
    | ok file =>
        rw [hg] at h
        simp [serveFileResponse] at h

/-- Witness for C9 at a concrete cache hit. -/
theorem c9_not_modified_no_backend_read_witness :
    (handleEnvelopeItemFileRequest storage0 (opts37 DocumentStatus.COMPLETED false)
        { ifNoneMatch := some (etagOf (opts37 DocumentStatus.COMPLETED false)) }).2 = [] :=
  c9_not_modified_no_backend_read storage0 (opts37 DocumentStatus.COMPLETED false)
    { ifNoneMatch := some (etagOf (opts37 DocumentStatus.COMPLETED false)) } (by decide)

/-! ### Claim C7: how backend read failures surface -/

def dbC7 : Db :=
  { envelopes := [{ id := 1, status := DocumentStatus.PENDING, teamId := 5, qrToken := none }]
  , envelopeItems := [{ id := 2, envelopeId := 1, title := "Doc".toList
                      , documentData := some ddS3k }]
  , recipients := []
  , teamMembers := [(7, 5)]
  , presignTokens := [] }

/-- C7 counterexample: an authorized retrieval whose storage backend read
fails is answered 404 File not found, not 500 — the same status the spec
reserves for absent records. -/
theorem c7_backend_failure_counterexample :
    ((envelopeItemViewRoute dbC7 storageDown (some 7) none 1 2
        { ifNoneMatch := none }).1.status = 404) ∧
    ((envelopeItemViewRoute dbC7 storageDown (some 7) none 1 2
        { ifNoneMatch := none }).1.body = ResponseBody.jsonError errFileNotFound) ∧
    ((envelopeItemViewRoute dbC7 storageDown (some 7) none 1 2
        { ifNoneMatch := none }).1.status ≠ 500) := by
  decide

/-- C7 amended: every storage read failure on the serving path is caught
and surfaced as a 404 File not found response, indistinguishable by
status from an absent record; no 500 is produced. -/
theorem c7_backend_failure_as_404 (storage : Storage) (o : HandlerOptions)
    (req : FileRequest) (e : StorageError)
    (hg : getFileServerSide storage o.documentData.type (selectedData o) =
      Except.error e)
    (hp : ¬(req.ifNoneMatch = some (etagOf o) ∧ o.isDownload = false)) :
    (handleEnvelopeItemFileRequest storage o req).1 =
      jsonErrorResponse 404 errFileNotFound := by
  rw [handleEnvelopeItemFileRequest_spec, if_neg hp, hg]

/-- Witness for the amended C7 at a failing object-store read. -/
theorem c7_backend_failure_as_404_witness :
    (handleEnvelopeItemFileRequest storageDown
        { title := "Doc".toList, status := DocumentStatus.PENDING
        , documentData := ddS3k, version := FileVersion.signed
        , isDownload := false } { ifNoneMatch := none }).1 =
      jsonErrorResponse 404 errFileNotFound :=
  c7_backend_failure_as_404 storageDown
    { title := "Doc".toList, status := DocumentStatus.PENDING
    , documentData := ddS3k, version := FileVersion.signed, isDownload := false }
    { ifNoneMatch := none } StorageError.networkFailure rfl (by decide)

/-! ### Claim C5: encrypted uploads and the storage backend -/

/-- Bytes of a structurally valid but encrypted PDF stub: the PDF header
magic followed by the encryption dictionary marker. -/
def encryptedPdfBytes : List Nat :=
  "%PDF/Encrypt".toList.map Char.toNat

/-- C5 counterexample: the POST /upload-pdf route, which uploads through
the normalization path, accepts an encrypted PDF and invokes the storage
put on it — no InvalidDocumentFile rejection happens on that entry
point. -/
theorem c5_encrypted_upload_counterexample :
    pdfParses encryptedPdfBytes = true ∧
    pdfIsEncrypted encryptedPdfBytes = true ∧
    ((uploadPdfRoute Transport.database 50 storage0
        (some { name := "a.pdf".toList, bytes := encryptedPdfBytes })).1.status = 200) ∧
    ((uploadPdfRoute Transport.database 50 storage0
        (some { name := "a.pdf".toList, bytes := encryptedPdfBytes })).2.2 =
      [StorageOp.put (normalizePdf encryptedPdfBytes)]) := by
  decide

/-- C5 amended: `putPdfFileServerSide` rejects an encrypted PDF with
InvalidDocumentFile before any storage call, but the POST /upload-pdf
route stores through `putNormalizedPdfFileServerSide`, which performs no
encryption check and always invokes the storage put. -/
theorem c5_encrypted_rejected_on_validating_path (transport : Transport)
    (storage : Storage) (sizeLimitMb : Nat) (file : UploadFile) :
    (pdfParses file.bytes = true → pdfIsEncrypted file.bytes = true →
      putPdfFileServerSide transport storage file =
        Except.error AppError.INVALID_DOCUMENT_FILE) ∧
    (file.bytes.length ≤ sizeLimitMb * 1024 * 1024 →
      (uploadPdfRoute transport sizeLimitMb storage (some file)).2.2 =
        [StorageOp.put (normalizePdf file.bytes)]) := by
  constructor
  · intro hparse henc
    simp [putPdfFileServerSide, hparse, henc]
  · intro hsize
    have hnot : ¬(file.bytes.length > sizeLimitMb * 1024 * 1024) := by omega
    cases transport with
    | s3 =>
        simp [uploadPdfRoute, hnot, putNormalizedPdfFileServerSide, putFileServerSide]
    | database =>
        simp [uploadPdfRoute, hnot, putNormalizedPdfFileServerSide, putFileServerSide]

/-- Witness for the amended C5 at the encrypted stub. -/
theorem c5_encrypted_rejected_on_validating_path_witness :
    putPdfFileServerSide Transport.database storage0
        { name := "a.pdf".toList, bytes := encryptedPdfBytes } =
      Except.error AppError.INVALID_DOCUMENT_FILE ∧
    (uploadPdfRoute Transport.database 50 storage0
        (some { name := "a.pdf".toList, bytes := encryptedPdfBytes })).2.2 =
      [StorageOp.put (normalizePdf encryptedPdfBytes)] :=
  ⟨(c5_encrypted_rejected_on_validating_path Transport.database storage0 50
      { name := "a.pdf".toList, bytes := encryptedPdfBytes }).1 (by decide) (by decide),
   (c5_encrypted_rejected_on_validating_path Transport.database storage0 50
      { name := "a.pdf".toList, bytes := encryptedPdfBytes }).2 (by decide)⟩

/-! ### Claim C8: upload validation precedes storage -/

/-- C8: a POST /upload-pdf request with a missing file, or one whose size
exceeds the configured limit of megabytes, is answered 400 with the
storage backend untouched: no operation is logged and the storage state
is unchanged. -/
theorem c8_upload_validation_before_storage (transport : Transport)
    (sizeLimitMb : Nat) (storage : Storage) (file? : Option UploadFile) :
    (file? = none →
      (uploadPdfRoute transport sizeLimitMb storage file?).1 =
          jsonErrorResponse 400 errNoFile ∧
      (uploadPdfRoute transport sizeLimitMb storage file?).2.2 = [] ∧
      (uploadPdfRoute transport sizeLimitMb storage file?).2.1 = storage) ∧
    (∀ f, file? = some f → f.bytes.length > sizeLimitMb * 1024 * 1024 →
      (uploadPdfRoute transport sizeLimitMb storage file?).1 =
          jsonErrorResponse 400 errTooLarge ∧
      (uploadPdfRoute transport sizeLimitMb storage file?).2.2 = [] ∧
      (uploadPdfRoute transport sizeLimitMb storage file?).2.1 = storage) := by
  constructor
  · intro hnone
    subst hnone
    exact ⟨rfl, rfl, rfl⟩
  · intro f hsome hsize
    subst hsome
    simp [uploadPdfRoute, hsize]

/-- Witness for C8: a missing file and an oversized file under a zero
limit are both rejected without a storage call. -/
theorem c8_upload_validation_before_storage_witness :
    ((uploadPdfRoute Transport.database 50 storage0 none).1 =
        jsonErrorResponse 400 errNoFile ∧
      (uploadPdfRoute Transport.database 50 storage0 none).2.2 = [] ∧
      (uploadPdfRoute Transport.database 50 storage0 none).2.1 = storage0) ∧
    ((uploadPdfRoute Transport.database 0 storage0
        (some { name := "a.pdf".toList, bytes := [37] })).1 =
          jsonErrorResponse 400 errTooLarge ∧
      (uploadPdfRoute Transport.database 0 storage0
        (some { name := "a.pdf".toList, bytes := [37] })).2.2 = [] ∧
      (uploadPdfRoute Transport.database 0 storage0
        (some { name := "a.pdf".toList, bytes := [37] })).2.1 = storage0) :=
  ⟨(c8_upload_validation_before_storage Transport.database 50 storage0 none).1 rfl,
   (c8_upload_validation_before_storage Transport.database 0 storage0
      (some { name := "a.pdf".toList, bytes := [37] })).2
      { name := "a.pdf".toList, bytes := [37] } rfl (by decide)⟩

/-! ### Claim C3: the authorization chain -/

def dbC3 : Db :=
  { envelopes := [{ id := 1, status := DocumentStatus.PENDING, teamId := 5, qrToken := none }]
  , envelopeItems := [{ id := 2, envelopeId := 1, title := "Doc".toList
                      , documentData := some ddInline37 }]
  , recipients := [{ envelopeId := 99, token := "other-token".toList }]
  , teamMembers := []
  , presignTokens := [] }

/-- C3 counterexample: on the recipient-token route, a request carrying a
recipient token that does not belong to the envelope (it belongs to
envelope 99, the item lives in envelope 1) — with no session and no
presign token — is answered 404, not the 401 the claim requires. -/
theorem c3_wrong_recipient_token_counterexample :
    ((tokenViewRoute dbC3 storage0 "other-token".toList 2
        { ifNoneMatch := none }).1.status = 404) ∧
    ((tokenViewRoute dbC3 storage0 "other-token".toList 2
        { ifNoneMatch := none }).1.status ≠ 401) := by
  decide

/-- C3 amended: on the session or presign route, no resolvable credential
is 401 (both with no token at all and with a token that fails presign
verification); a resolved user without membership of the owning team is
403; on the token route a token matching no recipient or QR credential of
the envelope of the item is 404, indistinguishable from a missing item; and a
valid recipient token for the correct envelope is served 200. -/
theorem c3_authorization_chain (db : Db) (storage : Storage)
    (envelopeId envelopeItemId : Nat) (req : FileRequest) (t : List Char) (u : Nat)
    (B : List Nat) :
    ((envelopeItemViewRoute db storage none none envelopeId envelopeItemId
        req).1.status = 401) ∧
    (verifyEmbeddingPresignToken db t = none →
      ∀ sess, (envelopeItemViewRoute db storage sess (some t) envelopeId envelopeItemId
        req).1.status = 401) ∧
    (∀ env item,
      db.envelopes.find? (fun e => e.id == envelopeId) = some env →
      db.envelopeItems.find?
          (fun i => i.id == envelopeItemId && i.envelopeId == env.id) = some item →
      isTeamMember db u env.teamId = false →
      (envelopeItemViewRoute db storage (some u) none envelopeId envelopeItemId
        req).1.status = 403) ∧
    (findTokenItem db t envelopeItemId = none →
      (tokenViewRoute db storage t envelopeItemId req).1.status = 404) ∧
    (∀ item env dd,
      findTokenItem db t envelopeItemId = some (item, env) →
      item.documentData = some dd →
      req.ifNoneMatch = none →
      getFileServerSide storage dd.type dd.data = Except.ok B →
      (tokenViewRoute db storage t envelopeItemId req).1.status = 200) := by
  refine ⟨?_, ?_, ?_, ?_, ?_⟩
  · simp [envelopeItemViewRoute, jsonErrorResponse]
  · intro hverify sess
    simp [envelopeItemViewRoute, hverify, jsonErrorResponse]
  · intro env item henv hitem hteam
    simp [envelopeItemViewRoute, henv, hitem, hteam, jsonErrorResponse]
  · intro hfind
    simp [tokenViewRoute, hfind, jsonErrorResponse]
  · intro item env dd hfind hdd hreq hget
    simp only [tokenViewRoute, hfind, hdd]
    rw [handleEnvelopeItemFileRequest_spec]
    rw [if_neg (by
      intro hcontra
      rw [hreq] at hcontra
      exact Option.noConfusion hcontra.1)]
    have hsel :
        selectedData
          { title := item.title, status := env.status, documentData := dd
          , version := FileVersion.signed, isDownload := false } = dd.data := rfl
    rw [hsel, hget]
    rfl

/-- Witness for the amended C3: the 401, 403, 404 and 200 outcomes at a
concrete database. -/
def dbC3W : Db :=
  { envelopes := [{ id := 1, status := DocumentStatus.PENDING, teamId := 5, qrToken := none }]
  , envelopeItems := [{ id := 2, envelopeId := 1, title := "Doc".toList
                      , documentData := some ddInline37 }]
  , recipients := [{ envelopeId := 1, token := "rcpt".toList }]
  , teamMembers := []
  , presignTokens := [] }

theorem c3_authorization_chain_witness :
    ((envelopeItemViewRoute dbC3W storage0 none none 1 2
        { ifNoneMatch := none }).1.status = 401) ∧
    ((envelopeItemViewRoute dbC3W storage0 (some 7) (some "bad".toList) 1 2
        { ifNoneMatch := none }).1.status = 401) ∧
    ((envelopeItemViewRoute dbC3W storage0 (some 7) none 1 2
        { ifNoneMatch := none }).1.status = 403) ∧
    ((tokenViewRoute dbC3W storage0 "bad".toList 2
        { ifNoneMatch := none }).1.status = 404) ∧
    ((tokenViewRoute dbC3W storage0 "rcpt".toList 2
        { ifNoneMatch := none }).1.status = 200) := by
  have h1 := c3_authorization_chain dbC3W storage0 1 2 { ifNoneMatch := none }
    "bad".toList 7 [37]
  have h2 := c3_authorization_chain dbC3W storage0 1 2 { ifNoneMatch := none }
    "rcpt".toList 7 [37]
  refine ⟨h1.1, ?_, ?_, ?_, ?_⟩
  · exact h1.2.1 (by decide) (some 7)
  · exact h1.2.2.1
      { id := 1, status := DocumentStatus.PENDING, teamId := 5, qrToken := none }
      { id := 2, envelopeId := 1, title := "Doc".toList
      , documentData := some ddInline37 }
      (by decide) (by decide) (by decide)
  · exact h1.2.2.2.1 (by decide)
  · exact h2.2.2.2.2
      { id := 2, envelopeId := 1, title := "Doc".toList
      , documentData := some ddInline37 }
      { id := 1, status := DocumentStatus.PENDING, teamId := 5, qrToken := none }
      ddInline37 (by decide) rfl rfl rfl

/-! ### Claim C10: audit log pagination -/

def auditDb10 : List AuditLog :=
  [ { id := 1, envelopeId := 1, type := AuditLogType.OTHER, createdAt := 10
    , dataIsResending := false }
  , { id := 2, envelopeId := 1, type := AuditLogType.OTHER, createdAt := 20
    , dataIsResending := false } ]

def env10 : EnvelopeRec :=
  { id := 1, status := DocumentStatus.PENDING, teamId := 5, qrToken := none }

/-- C10 counterexample: with two matching rows, page 2 and one row per
page, more than perPage rows matched the query yet nextCursor is
undefined — the cursor depends on the rows remaining at the page
position, not on the total match count. -/
theorem c10_next_cursor_counterexample :
    (queryAuditLogs auditDb10 env10 2 1 none none false).perPage <
      (queryAuditLogs auditDb10 env10 2 1 none none false).count ∧
    (queryAuditLogs auditDb10 env10 2 1 none none false).nextCursor = none := by
  decide

theorem isSome_map_getElem? {α β : Type} (f : α → β) (l : List α) (i : Nat) :
    (Option.map f l[i]?).isSome = true ↔ i < l.length := by
  rcases hx : l[i]? with _ | x
  · rw [List.getElem?_eq_none_iff] at hx
    simp only [Option.map_none', Option.isSome_none, Bool.false_eq_true, false_iff]
    omega
  · have hlt : i < l.length := by
      rcases List.getElem?_eq_some_iff.1 hx with ⟨hl, _⟩
      exact hl
    simp only [Option.map_some', Option.isSome_some, true_iff]
    exact hlt

/-- C10 amended: the query returns at most perPage rows; nextCursor is
defined exactly when more than perPage matching rows remain at the
current page position (after the cursor and the skip offset — the query
fetches one extra row and truncates); and the reported current page is
the page argument clamped below by one. -/
theorem c10_pagination (db : List AuditLog) (envelope : EnvelopeRec) (page : Int)
    (perPage : Nat) (orderBy : Option (AuditLogColumn × SortDirection))
    (cursor : Option Nat) (filterForRecentActivity : Bool) :
    (queryAuditLogs db envelope page perPage orderBy cursor
        filterForRecentActivity).data.length ≤ perPage ∧
    ((queryAuditLogs db envelope page perPage orderBy cursor
        filterForRecentActivity).nextCursor.isSome ↔
      perPage <
        ((auditLogPositioned db envelope filterForRecentActivity orderBy cursor).drop
          (auditLogSkip page perPage)).length) ∧
    (queryAuditLogs db envelope page perPage orderBy cursor
        filterForRecentActivity).currentPage = max page 1 := by
  refine ⟨?_, ?_, rfl⟩
  · simp only [queryAuditLogs, decide_eq_true_eq]
    split
    · rename_i h
      simp only [List.length_take, List.length_map] at h ⊢
      omega
    · rename_i h
      simp only [List.length_take, List.length_map] at h ⊢
      omega
  · simp only [queryAuditLogs, decide_eq_true_eq]
    split
    · rename_i h
      rw [isSome_map_getElem?]
      simp only [List.length_map, List.length_take] at h ⊢
      omega
    · rename_i h
      simp only [Option.isSome_none, Bool.false_eq_true, false_iff]
      simp only [List.length_map, List.length_take] at h
      omega

end Documenso
